import Mathlib

/-!
# Verification of `cads_api_client/processing.py`

A shallow embedding of the asynchronous job lifecycle manager of the
`cads-api-client` repository (file `cads_api_client/processing.py`):
link resolution over API response documents (`ApiResponse.get_links`,
`ApiResponse.get_link_href`), the status polling loop
(`Remote.wait_on_result`), result resolution (`Remote.build_result`),
and the verified download (`Results.download`, `Remote.download`).

Network effects are modelled by an explicit `Server` environment: the
`i`-th status request against the monitoring URL returns `status i`; the
monitoring document's `links` array is `jobLinks`; fetching a results URL
returns the body `resultsAt url`; and a transfer of `url` into a local
target file leaves a file of `sizeAt url` bytes (the value that
`os.path.getsize(target)` observes afterwards). Python floats in the
backoff computation are modelled by rationals: every value the loop
actually produces is of the form `min (1.5 ^ k) sleep_max` with
`1.5 ^ k < 2 ^ 53` before the clamp takes over, so each one is exactly
representable in binary floating point and the rational model is exact.
Python exceptions are modelled by the `Err` type and `Except`.
-/

/- Batteries marks rational arithmetic `@[irreducible]`, which would keep
concrete polling traces from evaluating by `rfl`/`decide`; restore the
default reducibility for the two operations the backoff model uses. -/
attribute [local semireducible] Rat.mul Rat.inv

/-- One entry of a document's `links` array.  The code reads the relation
defensively (`link.get("rel")`, which may be `None`) and the target
unconditionally (`links[0]["href"]`), so `rel` is optional and `href` is
a plain string, matching the `{rel, href}` objects of the interface. -/
structure Link where
  rel : Option String
  href : String
  deriving DecidableEq, Repr

/-- The Python exceptions the embedded code can raise.
`runtimeError` is the bare `RuntimeError("link not found or not unique ...")`
of `get_link_href`; `processingFailedError` and `downloadError` are the two
exception classes defined by the module (the `DownloadError` message
"Download failed: downloaded %s byte(s) out of %s" carries the actual and
the declared byte count, kept here as the two fields); `keyError` and
`attributeError` are the built-in exceptions raised by a missing dict key
and a missing attribute. -/
inductive Err where
  | runtimeError (msg : String)
  | processingFailedError (msg : String)
  | downloadError (actual declared : Int)
  | keyError (key : String)
  | attributeError (attr : String)
  deriving DecidableEq, Repr

/-- `ApiResponse.get_links`: `for link in json.get("links", []): if rel is
not None and link.get("rel") == rel: links.append(link)`.  The document's
`links` array is passed explicitly. -/
def get_links (links : List Link) (rel : Option String) : List Link :=
  links.filter (fun link => rel.isSome && link.rel == rel)

/-- `ApiResponse.get_link_href`: raises `RuntimeError` unless exactly one
link matches, else returns that link's `href`. -/
def get_link_href (links : List Link) (rel : Option String) : Except Err String :=
  match get_links links rel with
  | [link] => .ok link.href
  | _ => .error (.runtimeError "link not found or not unique")

/-- The body of a results document, with exactly the fields the code
reads: `json.get("asset", {}).get("value", {}).get("href")`, the
`"file:size"` key of that same `asset.value` object (`fileSizeKey` is
`some n` when the key is present with integer value `n`, `none` when the
key or the surrounding objects are absent), and the top-level
`title`/`detail` strings used in failure messages. -/
structure ResultsBody where
  assetHref : Option String := none
  fileSizeKey : Option Int := none
  title : Option String := none
  detail : Option String := none
  deriving DecidableEq, Repr

/-- A fetched results document: `Results(request_result)` wrapping the
URL it was fetched from (`self.response.url`) and its JSON body. -/
structure Results where
  url : String
  body : ResultsBody
  deriving DecidableEq, Repr

/-- `Results.get_result_href`: `asset = json.get("asset", {}).get("value",
{}); return asset.get("href")`. -/
def Results.get_result_href (r : Results) : Option String :=
  r.body.assetHref

/-- `Results.get_result_size`: `size = asset["file:size"]; return
int(size)`.  The subscript access raises `KeyError` when the key is
absent (including when `asset` or `value` are absent, since the lookup
then runs on the empty dict). -/
def Results.get_result_size (r : Results) : Except Err Int :=
  match r.body.fileSizeKey with
  | some n => .ok n
  | none => .error (.keyError "file:size")

/-- Python truthiness of `info.get(key)` for an optional string field:
truthy iff present and non-empty. -/
def truthyStr (o : Option String) : Bool :=
  match o with
  | some s => s ≠ ""
  | none => false

/-- Python `s.split("/")` on a character list: segments between the
slashes, keeping empty segments, `[""]` for the empty string. -/
def splitSlash : List Char → List (List Char)
  | [] => [[]]
  | c :: rest =>
    if c = '/' then [] :: splitSlash rest
    else
      match splitSlash rest with
      | [] => [[c]]
      | h :: t => (c :: h) :: t

/-- Join segments back with `/` between them. -/
def joinSlash : List (List Char) → List Char
  | [] => []
  | [seg] => seg
  | seg :: rest => seg ++ '/' :: joinSlash rest

/-- Split a character list at the first `://`: `some (scheme, rest)`
when the separator occurs, `none` otherwise. -/
def schemeSplit : List Char → Option (List Char × List Char)
  | [] => none
  | c :: rest =>
    if c = ':' ∧ rest.take 2 = ['/', '/'] then some ([], rest.drop 2)
    else (schemeSplit rest).map (fun p => (c :: p.1, p.2))

/-- `urlparse(url).path` for the URLs this client produces: the part
after scheme and authority, cut at a query or fragment delimiter; a URL
without a scheme is all path. -/
def urlPath (url : String) : String :=
  match schemeSplit url.data with
  | none => String.mk (url.data.takeWhile (fun c => c != '?' && c != '#'))
  | some (_scheme, rest) =>
    match splitSlash rest with
    | [] => ""
    | [_host] => ""
    | _host :: segs =>
      String.mk (('/' :: joinSlash segs).takeWhile (fun c => c != '?' && c != '#'))

/-- Python `s.strip("/")`: drop the character from both ends. -/
def pyStrip (s : String) (c : Char) : String :=
  String.mk (((s.data.dropWhile (· = c)).reverse.dropWhile (· = c)).reverse)

/-- `path.split("/")[-1]`: the last `/`-separated segment (Python's
`split` on a non-empty separator never returns an empty list). -/
def lastSegment (s : String) : String :=
  String.mk (((splitSlash s.data).getLast?).getD [])

/-- `urllib.parse.urljoin(base, url)` for the inputs this client
produces: CPython returns `base` when `url` is `None` or empty
(`if not url: return base`), returns `url` when it is absolute (has a
scheme), and otherwise resolves the reference against `base`; the
relative case (not exercised by the specified behaviour) is modelled by
the RFC 3986 merge that replaces the base's last path segment. -/
def urljoin (base : String) (url : Option String) : String :=
  match url with
  | none => base
  | some u =>
    if u = "" then base
    else if (schemeSplit u.data).isSome then u
    else String.mk (joinSlash (splitSlash base.data).dropLast) ++ "/" ++ u

/-- `Results.download(target, timeout)`: resolve the asset URL against
the document URL, derive the default target name from the URL path when
`target` is `None`, transfer (`multiurl.download`), then compare
`os.path.getsize(target)` with `get_result_size()` — but only when the
declared size is truthy (`if size:`), so a declared size of `0` skips the
comparison.  `sizeAt url` gives the byte count the transfer of `url`
leaves in the target file. -/
def Results.download (r : Results) (sizeAt : String → Int) (target : Option String) :
    Except Err String :=
  let result_href := r.get_result_href
  let url := urljoin r.url result_href
  let target := match target with
    | none => lastSegment (pyStrip (urlPath url) '/')
    | some t => t
  let target_size := sizeAt url
  match r.get_result_size with
  | .error e => .error e
  | .ok size =>
    if size ≠ 0 then
      if target_size ≠ size then .error (.downloadError target_size size)
      else .ok target
    else .ok target

/-- The job handle: `Remote(url, sleep_max=120)` (the `retry_options`
field only configures the transport layer and has no effect here). -/
structure Remote where
  url : String
  sleep_max : ℚ := 120

/-- The server environment: `status i` is the `"status"` field of the
`i`-th GET against the monitoring URL; `jobLinks` the `links` array of
the monitoring document as fetched by `build_result`; `resultsAt u` the
body of the results document served at `u`; `sizeAt u` the byte count a
transfer of `u` leaves in the local target file. -/
structure Server where
  status : Nat → String
  jobLinks : List Link
  resultsAt : String → ResultsBody
  sizeAt : String → Int

/-- `Remote.build_result`: GET the monitoring URL, try
`get_link_href(rel="results")`, on `RuntimeError` fall back to
`f"{self.url}/results"`, then GET the resolved URL and wrap it as
`Results`. -/
def Remote.build_result (r : Remote) (srv : Server) : Results :=
  let results_url := match get_link_href srv.jobLinks (some "results") with
    | .ok u => u
    | .error _ => r.url ++ "/results"
  ⟨results_url, srv.resultsAt results_url⟩

/-- The failure message assembled on status `"failed"`: start from
`"processing failed"`, replace it by `title` when that is truthy, append
`": " + detail` when that is truthy. -/
def failure_message (info : ResultsBody) : String :=
  let msg := "processing failed"
  let msg := if truthyStr info.title then info.title.getD "" else msg
  let msg := if truthyStr info.detail then msg ++ ": " ++ info.detail.getD "" else msg
  msg

/-- `sleep *= 1.5; if sleep > self.sleep_max: sleep = self.sleep_max` —
the interval update applied after each non-terminal poll, before the
sleep. -/
def clampStep (sleep sleep_max : ℚ) : ℚ :=
  let s := sleep * (3 / 2)
  if s > sleep_max then sleep_max else s

/-- The observable outcome of `Remote.wait_on_result`: normal return or
raised exception, the number of status GETs issued against the
monitoring URL, and the sequence of `time.sleep` durations in order. -/
structure WaitOutcome where
  result : Except Err Unit
  requests : Nat
  sleeps : List ℚ
  deriving Repr

/-- The body of `wait_on_result`'s `while True` loop.  `sleep` is the
current interval, `last_status` the previously fetched status (used only
for change logging, which has no observable effect here), `i` the index
of the next status request, `sleeps` the reversed list of sleeps
performed so far, `reqs` the number of status requests issued so far.
Fuel bounds the number of iterations; `none` means the loop was still
running when the fuel ran out (the source loop is unbounded). -/
def wait_loop (r : Remote) (srv : Server) (sleep : ℚ) (last_status : String)
    (i : Nat) (sleeps : List ℚ) (reqs : Nat) : Nat → Option WaitOutcome
  | 0 => none
  | fuel + 1 =>
    let status := srv.status i
    if status = "successful" then
      some ⟨.ok (), reqs + 1, sleeps.reverse⟩
    else if status = "failed" then
      let info := (r.build_result srv).body
      some ⟨.error (.processingFailedError (failure_message info)), reqs + 1, sleeps.reverse⟩
    else if status = "accepted" ∨ status = "running" then
      let sleep := clampStep sleep r.sleep_max
      wait_loop r srv sleep status (i + 1) (sleep :: sleeps) (reqs + 1) fuel
    else
      some ⟨.error (.processingFailedError ("Unknown API state '" ++ status ++ "'")),
        reqs + 1, sleeps.reverse⟩

/-- `Remote.wait_on_result`: `sleep = 1.0; last_status = self.status`
(one status request, whose value is only remembered for change logging),
then the loop, each iteration of which issues a further status request. -/
def Remote.wait_on_result (r : Remote) (srv : Server) (fuel : Nat) : Option WaitOutcome :=
  let last_status := srv.status 0
  wait_loop r srv 1 last_status 1 [] 1 fuel

/-- The first definition of `Remote.download` in the class body —
`wait_on_result`, `build_result`, `results.download(target)` — which is
dead code: the second definition below replaces it when the class body
is executed. -/
def Remote.download_first_def (r : Remote) (srv : Server) (fuel : Nat)
    (target : Option String) : Option (Except Err String) :=
  match r.wait_on_result srv fuel with
  | none => none
  | some o =>
    match o.result with
    | .error e => some (.error e)
    | .ok () => some ((r.build_result srv).download srv.sizeAt target)

/-- The effective `Remote.download` (the second of the two definitions,
the one the class ends up with): `self.wait_on_result()` then
`self._download_result(target)` — and no attribute `_download_result`
exists anywhere in the class or module, so after a successful wait the
call raises `AttributeError`. -/
def Remote.download (r : Remote) (srv : Server) (fuel : Nat)
    (target : Option String) : Option (Except Err String) :=
  match r.wait_on_result srv fuel with
  | none => none
  | some o =>
    match o.result with
    | .error e => some (.error e)
    | .ok () => some (.error (.attributeError "_download_result"))

/-- The interval value after `k` applications of the multiply-and-clamp
update, starting from the initial `1.0`. -/
def backoff (m : ℚ) : Nat → ℚ
  | 0 => 1
  | k + 1 => clampStep (backoff m k) m

/-! ## Concrete fixtures used by witnesses and counterexamples -/

/-- A job handle for the spec's scenario monitor URL. -/
def remoteEx : Remote := { url := "https://api.example/jobs/42" }

/-- The spec's scenario server: successive status requests return
`accepted`, `running`, `successful`; the monitoring document carries no
links; the results document declares an absolute asset of 5 bytes and a
transfer of any URL leaves 5 bytes. -/
def srvScenario : Server where
  status := fun i => match i with
    | 0 => "accepted"
    | 1 => "running"
    | _ => "successful"
  jobLinks := []
  resultsAt := fun _ => { assetHref := some "https://dl.example/out.nc", fileSizeKey := some 5 }
  sizeAt := fun _ => 5

/-- A server whose very first status response is the unrecognized string
`"bogus"`, followed by `"successful"`. -/
def srvBogusFirst : Server where
  status := fun i => match i with
    | 0 => "bogus"
    | _ => "successful"
  jobLinks := []
  resultsAt := fun _ => {}
  sizeAt := fun _ => 5

/-- A server returning `accepted`, `running`, then the unrecognized
string `"weird"` forever. -/
def srvUnknown : Server where
  status := fun i => match i with
    | 0 => "accepted"
    | 1 => "running"
    | _ => "weird"
  jobLinks := []
  resultsAt := fun _ => {}
  sizeAt := fun _ => 5

/-- A server reporting `failed` on every status request, whose results
document carries a title and a detail. -/
def srvAllFailed : Server where
  status := fun _ => "failed"
  jobLinks := []
  resultsAt := fun _ => { title := some "bad", detail := some "worse" }
  sizeAt := fun _ => 5

/-- A results document whose `asset.value` object has no `href` but does
declare `file:size` 5. -/
def rNoHref : Results :=
  { url := "https://api.example/jobs/42/results", body := { fileSizeKey := some 5 } }

/-- A results document whose `asset.value` object has an `href` but no
`file:size` key. -/
def rNoSize : Results :=
  { url := "https://api.example/jobs/42/results",
    body := { assetHref := some "https://dl.example/out.nc" } }

/-- A results document declaring an asset of 1024 bytes. -/
def rDeclared : Results :=
  { url := "https://api.example/jobs/42/results",
    body := { assetHref := some "https://dl.example/out.nc", fileSizeKey := some 1024 } }

/-- A results document declaring `file:size` 0. -/
def rZero : Results :=
  { url := "https://api.example/jobs/42/results",
    body := { assetHref := some "https://dl.example/out.nc", fileSizeKey := some 0 } }

/-! ## C1 -/

/-- C1: the exposed entry point does NOT sequence polling, result
resolution and verified download.  The class body defines `download`
twice; the second definition (the effective one) calls
`self._download_result(target)`, an attribute that exists nowhere, so on
the scenario server the call polls to completion and then raises
`AttributeError` instead of downloading — while the first, shadowed
definition would have returned the local path as the spec describes. -/
theorem C1_download_undefined_method :
    remoteEx.download srvScenario 5 (some "out.dat")
      = some (.error (.attributeError "_download_result"))
    ∧ remoteEx.download_first_def srvScenario 5 (some "out.dat")
      = some (.ok "out.dat") :=
  ⟨rfl, rfl⟩

/-! ## C2 -/

/-- C2 counterexample: on the scenario `accepted`, `running`,
`successful` the loop issues 3 status requests but performs a single
sleep of 1.5 time units, not the claimed waits of 1.0 and 1.5: the first
status request is the unclassified `last_status` fetch, the second
follows it immediately, and the interval is multiplied by 1.5 before the
first sleep. -/
theorem C2_counterexample :
    remoteEx.wait_on_result srvScenario 5
      = some { result := .ok (), requests := 3, sleeps := [3 / 2] }
    ∧ [(3 : ℚ) / 2] ≠ [1, 3 / 2] :=
  ⟨rfl, by decide⟩

/-! ## C3 -/

/-- C3: `get_links` called with `rel=None` returns the empty list, not
all links — the loop condition `rel is not None and link.get("rel") ==
rel` filters every link out — while a named relation is matched
correctly. -/
theorem C3_get_links_none_returns_nothing :
    get_links [⟨some "self", "https://api.example/"⟩] none = []
    ∧ get_links [⟨some "self", "https://api.example/"⟩] (some "self")
      = [⟨some "self", "https://api.example/"⟩] :=
  ⟨rfl, rfl⟩

/-! ## C4 -/

/-- C4: a download whose results document lacks the `file:size` key does
not succeed without verification: `get_result_size` reads
`asset["file:size"]` with a plain subscript (despite its `Optional[int]`
annotation), so the download raises `KeyError` after the transfer.  When
the key is present and non-zero the comparison behaves as claimed:
mismatch raises `DownloadError` carrying actual and declared counts,
match returns the local path. -/
theorem C4_missing_size_raises_keyerror :
    rNoSize.download (fun _ => 5) (some "out.nc") = .error (.keyError "file:size")
    ∧ rDeclared.download (fun _ => 1000) (some "out.nc")
      = .error (.downloadError 1000 1024)
    ∧ rDeclared.download (fun _ => 1024) (some "out.nc") = .ok "out.nc" :=
  ⟨rfl, rfl, rfl⟩

/-! ## C5 -/

/-- C5 counterexample: the unrecognized status `"bogus"` is observed by
the very first status request, yet `wait_on_result` raises nothing: the
first fetch only initializes `last_status` and is never classified, so
the loop issues one more request, sees `"successful"` and returns
normally. -/
theorem C5_counterexample :
    srvBogusFirst.status 0 = "bogus"
    ∧ remoteEx.wait_on_result srvBogusFirst 3
      = some { result := .ok (), requests := 2, sleeps := [] } :=
  ⟨rfl, rfl⟩

/-! ## C10 -/

/-- C10: a declared `file:size` of 0 is falsy, so `if size:` skips the
byte-count comparison entirely and the download returns the local path
whatever `os.path.getsize` reports. -/
theorem C10_zero_size_skips_check (r : Results) (sizeAt : String → Int)
    (target : Option String) (h : r.body.fileSizeKey = some 0) :
    r.download sizeAt target
      = .ok (match target with
          | none => lastSegment (pyStrip (urlPath (urljoin r.url r.get_result_href)) '/')
          | some t => t) := by
  simp only [Results.download, Results.get_result_size, Results.get_result_href, h]
  simp

/-- C10 witness: the zero-size document downloads successfully even
though 5 bytes were actually transferred. -/
theorem C10_zero_size_skips_check_witness :
    rZero.body.fileSizeKey = some 0
    ∧ rZero.download (fun _ => 5) (some "out.nc") = .ok "out.nc" :=
  ⟨rfl, C10_zero_size_skips_check rZero (fun _ => 5) (some "out.nc") rfl⟩

/-! ## C6 -/

/-- C6 counterexample: a results document whose `asset.value` has no
`href` does not make resolution fail: `get_result_href` returns `None`,
`urljoin` then returns the base URL, and `download` happily fetches the
results document's own URL and returns a local path (here named
`results`, the last path segment of that URL). -/
theorem C6_counterexample :
    rNoHref.get_result_href = none
    ∧ rNoHref.download (fun _ => 5) none = .ok "results" :=
  ⟨rfl, rfl⟩

/-- `urljoin` of an absent reference is the base URL (`if not url:
return base`). -/
theorem urljoin_of_none (base : String) : urljoin base none = base := rfl

/-- `urljoin` of an absolute URL against itself is that URL. -/
theorem urljoin_self_of_scheme (base : String) (hne : base ≠ "")
    (habs : (schemeSplit base.data).isSome = true) :
    urljoin base (some base) = base := by
  simp only [urljoin]
  rw [if_neg hne, if_pos habs]

/-- C6 amended: when the nested `asset.value` object lacks `href`, result
resolution does not fail at all: `get_result_href` returns `None` and
the download behaves exactly as if the asset were located at the results
document's own URL (CPython's `urljoin(base, None)` returns `base`), so
the document itself is downloaded, subject only to the usual size
check. -/
theorem C6_amended_href_absent (r : Results) (sizeAt : String → Int)
    (target : Option String) (h : r.body.assetHref = none)
    (hne : r.url ≠ "") (habs : (schemeSplit r.url.data).isSome = true) :
    r.get_result_href = none
    ∧ r.download sizeAt target
      = Results.download ⟨r.url, { r.body with assetHref := some r.url }⟩ sizeAt target := by
  constructor
  · simp [Results.get_result_href, h]
  · unfold Results.download
    simp only [Results.get_result_href, Results.get_result_size, h,
      urljoin_of_none, urljoin_self_of_scheme r.url hne habs]

/-- C6 witness. -/
theorem C6_amended_href_absent_witness :
    rNoHref.body.assetHref = none
    ∧ rNoHref.url ≠ ""
    ∧ (schemeSplit rNoHref.url.data).isSome = true
    ∧ (rNoHref.get_result_href = none
      ∧ rNoHref.download (fun _ => 5) none
        = Results.download
            ⟨rNoHref.url, { rNoHref.body with assetHref := some rNoHref.url }⟩
            (fun _ => 5) none) :=
  ⟨rfl, by decide, by decide,
    C6_amended_href_absent rNoHref (fun _ => 5) none rfl (by decide) (by decide)⟩

/-! ## C7 -/

/-- When the number of links matching the relation is not exactly one,
`get_link_href` raises the `RuntimeError`. -/
theorem get_link_href_not_unique (links : List Link) (rel : Option String)
    (h : (get_links links rel).length ≠ 1) :
    get_link_href links rel = .error (.runtimeError "link not found or not unique") := by
  unfold get_link_href
  split
  · next link heq => exact absurd (by rw [heq]; rfl) h
  · rfl

/-- C7: when resolving the `results` relation fails (zero or several
matching links), `build_result` does not propagate the `RuntimeError`:
it catches it and fetches the conventional URL obtained by appending
`/results` to the monitoring URL. -/
theorem C7_results_fallback (r : Remote) (srv : Server)
    (h : (get_links srv.jobLinks (some "results")).length ≠ 1) :
    r.build_result srv
      = ⟨r.url ++ "/results", srv.resultsAt (r.url ++ "/results")⟩ := by
  unfold Remote.build_result
  rw [get_link_href_not_unique _ _ h]

/-- C7 witness: the scenario monitoring document has no links at all, and
`build_result` returns the document fetched at `<monitor-url>/results`. -/
theorem C7_results_fallback_witness :
    (get_links srvScenario.jobLinks (some "results")).length ≠ 1
    ∧ remoteEx.build_result srvScenario
      = ⟨"https://api.example/jobs/42/results",
          srvScenario.resultsAt "https://api.example/jobs/42/results"⟩ :=
  ⟨by decide, C7_results_fallback remoteEx srvScenario (by decide)⟩

/-! ## C8 -/

/-- C8: `get_link_href` returns the href of the unique matching link
when exactly one link matches the relation, and raises the
`RuntimeError` ("link not found or not unique") whenever the number of
matches differs from one — it never silently defaults. -/
theorem C8_link_resolution (links : List Link) (rel : String) :
    (∀ link, get_links links (some rel) = [link] →
      get_link_href links (some rel) = .ok link.href)
    ∧ ((get_links links (some rel)).length ≠ 1 →
      get_link_href links (some rel)
        = .error (.runtimeError "link not found or not unique")) := by
  constructor
  · intro link heq
    unfold get_link_href
    rw [heq]
  · intro h
    exact get_link_href_not_unique _ _ h

/-- C8 witness: a unique `results` link resolves to its href; an empty
links array raises. -/
theorem C8_link_resolution_witness :
    get_link_href [⟨some "results", "https://r.example/doc"⟩] (some "results")
      = .ok "https://r.example/doc"
    ∧ get_link_href [] (some "results")
      = .error (.runtimeError "link not found or not unique") :=
  ⟨(C8_link_resolution [⟨some "results", "https://r.example/doc"⟩] "results").1
      ⟨some "results", "https://r.example/doc"⟩ rfl,
    (C8_link_resolution [] "results").2 (by decide)⟩

/-! ## C2 amended -/

/-- Invariant of the polling loop: entering an iteration after `k`
non-terminal classified polls, the interval variable holds `backoff
sleep_max k`, the recorded sleeps are `backoff sleep_max 1, ...,
backoff sleep_max k` and `k + 1` status requests have been issued; on
termination the trace therefore consists of one sleep per non-terminal
classified poll, the `j`-th equal to `backoff sleep_max (j + 1)`, with
two more requests than sleeps. -/
theorem wait_loop_sleeps (r : Remote) (srv : Server) :
    ∀ (fuel k i : Nat) (last : String) (o : WaitOutcome),
      wait_loop r srv (backoff r.sleep_max k) last i
        (((List.range k).map (fun j => backoff r.sleep_max (j + 1))).reverse)
        (k + 1) fuel = some o →
      o.requests = o.sleeps.length + 2
      ∧ o.sleeps = (List.range o.sleeps.length).map (fun j => backoff r.sleep_max (j + 1)) := by
  intro fuel
  induction fuel with
  | zero =>
    intro k i last o h
    simp [wait_loop] at h
  | succ n ih =>
    intro k i last o h
    simp only [wait_loop] at h
    by_cases h1 : srv.status i = "successful"
    · rw [if_pos h1] at h
      cases h
      constructor <;> simp
    · rw [if_neg h1] at h
      by_cases h2 : srv.status i = "failed"
      · rw [if_pos h2] at h
        cases h
        constructor <;> simp
      · rw [if_neg h2] at h
        by_cases h3 : srv.status i = "accepted" ∨ srv.status i = "running"
        · rw [if_pos h3] at h
          have e : backoff r.sleep_max (k + 1)
              :: ((List.range k).map (fun j => backoff r.sleep_max (j + 1))).reverse
              = ((List.range (k + 1)).map (fun j => backoff r.sleep_max (j + 1))).reverse := by
            simp [List.range_succ]
          rw [show clampStep (backoff r.sleep_max k) r.sleep_max
                = backoff r.sleep_max (k + 1) from rfl, e] at h
          exact ih (k + 1) (i + 1) (srv.status i) o h
        · rw [if_neg h3] at h
          cases h
          constructor <;> simp

/-- C2 amended: on the scenario `accepted`, `running`, `successful` the
loop issues exactly 3 status requests but performs a single inter-poll
wait of 1.5 time units (the initial status fetch and the first
classified poll are back-to-back, and the interval is multiplied before
the first sleep); in general every run that returns performs one sleep
per non-terminal classified poll, the `j`-th sleep equal to the value
obtained from the initial 1.0 by `j + 1` multiply-by-1.5-then-clamp
updates (ceiling `sleep_max`, default 120), and issues two more status
requests than sleeps — in particular the first poll happens immediately
with no pre-sleep. -/
theorem C2_amended_backoff :
    remoteEx.wait_on_result srvScenario 5
      = some { result := .ok (), requests := 3, sleeps := [3 / 2] }
    ∧ ∀ (r : Remote) (srv : Server) (fuel : Nat) (o : WaitOutcome),
        r.wait_on_result srv fuel = some o →
        o.requests = o.sleeps.length + 2
        ∧ o.sleeps = (List.range o.sleeps.length).map (fun j => backoff r.sleep_max (j + 1)) := by
  constructor
  · rfl
  · intro r srv fuel o h
    exact wait_loop_sleeps r srv fuel 0 1 (srv.status 0) o h

/-- C2 amended witness: the scenario run satisfies the general trace
law. -/
theorem C2_amended_backoff_witness :
    remoteEx.wait_on_result srvScenario 5
      = some { result := .ok (), requests := 3, sleeps := [3 / 2] }
    ∧ ((3 : Nat) = [(3 : ℚ) / 2].length + 2
      ∧ [(3 : ℚ) / 2] = (List.range [(3 : ℚ) / 2].length).map
          (fun j => backoff remoteEx.sleep_max (j + 1))) :=
  ⟨C2_amended_backoff.1,
    C2_amended_backoff.2 remoteEx srvScenario 5
      { result := .ok (), requests := 3, sleeps := [3 / 2] } C2_amended_backoff.1⟩

/-! ## C5 amended -/

/-- If the classified polls at offsets `0..m-1` from `i` are all
non-terminal and the poll at offset `m` returns a string outside the
four recognized values, the loop raises `ProcessingFailedError("Unknown
API state ...")` right after that poll, having issued exactly `m + 1`
further status requests. -/
theorem wait_loop_unknown (r : Remote) (srv : Server) :
    ∀ (m fuel : Nat), m < fuel →
    ∀ (i : Nat) (sleep : ℚ) (last : String) (sleeps : List ℚ) (reqs : Nat),
      (∀ j, j < m → srv.status (i + j) = "accepted" ∨ srv.status (i + j) = "running") →
      (srv.status (i + m) ≠ "accepted" ∧ srv.status (i + m) ≠ "running"
        ∧ srv.status (i + m) ≠ "successful" ∧ srv.status (i + m) ≠ "failed") →
      ∃ sl, wait_loop r srv sleep last i sleeps reqs fuel
        = some ⟨.error (.processingFailedError
            ("Unknown API state '" ++ srv.status (i + m) ++ "'")), reqs + m + 1, sl⟩ := by
  intro m
  induction m with
  | zero =>
    intro fuel hf i sleep last sleeps reqs _ hunk
    obtain ⟨ha, hr, hs, hd⟩ := hunk
    rw [Nat.add_zero] at ha hr hs hd
    match fuel, hf with
    | fuel + 1, _ =>
      refine ⟨sleeps.reverse, ?_⟩
      simp only [wait_loop, Nat.add_zero]
      rw [if_neg hs, if_neg hd, if_neg (by rintro (h | h) <;> [exact ha h; exact hr h])]
  | succ m ih =>
    intro fuel hf i sleep last sleeps reqs hpre hunk
    match fuel, hf with
    | fuel + 1, hf =>
      have hs0 := hpre 0 (Nat.succ_pos m)
      rw [Nat.add_zero] at hs0
      have h1 : srv.status i ≠ "successful" := by
        rcases hs0 with h | h <;> simp [h]
      have h2 : srv.status i ≠ "failed" := by
        rcases hs0 with h | h <;> simp [h]
      have hpre' : ∀ j, j < m →
          srv.status (i + 1 + j) = "accepted" ∨ srv.status (i + 1 + j) = "running" := by
        intro j hj
        have := hpre (j + 1) (by omega)
        rwa [show i + (j + 1) = i + 1 + j by omega] at this
      have hunk' : srv.status (i + 1 + m) ≠ "accepted" ∧ srv.status (i + 1 + m) ≠ "running"
          ∧ srv.status (i + 1 + m) ≠ "successful" ∧ srv.status (i + 1 + m) ≠ "failed" := by
        rwa [show i + 1 + m = i + (m + 1) by omega]
      obtain ⟨sl, hsl⟩ := ih fuel (by omega) (i + 1) (clampStep sleep r.sleep_max)
        (srv.status i) (clampStep sleep r.sleep_max :: sleeps) (reqs + 1) hpre' hunk'
      refine ⟨sl, ?_⟩
      simp only [wait_loop]
      rw [if_neg h1, if_neg h2, if_pos hs0, hsl,
        show i + 1 + m = i + (m + 1) by omega,
        show reqs + 1 + m + 1 = reqs + (m + 1) + 1 by omega]

/-- C5 amended: an unrecognized status string observed by a classified
poll (any status request after the initial `last_status` fetch, whose
value is used only for change logging and is never classified) makes
`wait_on_result` raise `ProcessingFailedError("Unknown API state
'<status>'")` — the code's single failure exception class, not a
distinct protocol error — immediately on the first such observation,
with zero additional polls and no retry: exactly `k + 1` status
requests are issued when the offending value arrives at request `k`. -/
theorem C5_amended_unknown_status (r : Remote) (srv : Server) (k fuel : Nat)
    (hk : 1 ≤ k) (hfuel : k ≤ fuel)
    (hpre : ∀ j, 1 ≤ j → j < k →
      srv.status j = "accepted" ∨ srv.status j = "running")
    (hunk : srv.status k ≠ "accepted" ∧ srv.status k ≠ "running"
      ∧ srv.status k ≠ "successful" ∧ srv.status k ≠ "failed") :
    ∃ sl, r.wait_on_result srv fuel
      = some ⟨.error (.processingFailedError
          ("Unknown API state '" ++ srv.status k ++ "'")), k + 1, sl⟩ := by
  have h := wait_loop_unknown r srv (k - 1) fuel (by omega) 1 1 (srv.status 0) [] 1
    (fun j hj => by
      have := hpre (1 + j) (by omega) (by omega)
      rwa [] at this)
    (by rwa [show 1 + (k - 1) = k by omega])
  rw [show 1 + (k - 1) = k by omega] at h
  exact h

/-- C5 amended witness: `accepted`, `running`, then `weird` — the error
surfaces at the third status request, with three requests in total. -/
theorem C5_amended_unknown_status_witness :
    ∃ sl, remoteEx.wait_on_result srvUnknown 3
      = some ⟨.error (.processingFailedError "Unknown API state 'weird'"), 3, sl⟩ :=
  C5_amended_unknown_status remoteEx srvUnknown 2 3 (by decide) (by decide)
    (fun j h1 h2 => by
      have : j = 1 := by omega
      subst this
      exact Or.inr rfl)
    (by decide)

/-! ## C9 -/

/-- When neither `title` nor `detail` is present, the failure message is
the generic string. -/
theorem failure_message_generic (info : ResultsBody)
    (ht : info.title = none) (hd : info.detail = none) :
    failure_message info = "processing failed" := by
  simp [failure_message, ht, hd, truthyStr]

/-- A present `title` always occurs inside the failure message. -/
theorem failure_message_has_title (info : ResultsBody) (t : String)
    (h : info.title = some t) :
    ∃ s₁ s₂, failure_message info = s₁ ++ t ++ s₂ := by
  by_cases he : t = ""
  · subst he
    exact ⟨"", failure_message info, by simp⟩
  · have htr : truthyStr (some t) = true := by simp [truthyStr, he]
    simp only [failure_message, h, htr]
    rw [if_pos trivial]
    simp only [Option.getD_some]
    by_cases hd : truthyStr info.detail = true
    · rw [if_pos hd]
      exact ⟨"", ": " ++ info.detail.getD "", by
        rw [String.empty_append, String.append_assoc]⟩
    · rw [if_neg hd]
      exact ⟨"", "", by rw [String.empty_append, String.append_empty]⟩

/-- A present `detail` always occurs inside the failure message. -/
theorem failure_message_has_detail (info : ResultsBody) (d : String)
    (h : info.detail = some d) :
    ∃ s₁ s₂, failure_message info = s₁ ++ d ++ s₂ := by
  by_cases he : d = ""
  · subst he
    exact ⟨failure_message info, "", by simp⟩
  · have hdr : truthyStr (some d) = true := by simp [truthyStr, he]
    simp only [failure_message, h, hdr]
    rw [if_pos trivial]
    simp only [Option.getD_some]
    refine ⟨(if truthyStr info.title = true then info.title.getD ""
      else "processing failed") ++ ": ", "", ?_⟩
    rw [String.append_empty]

/-- If every status the server reports is `accepted`, `running` or
`failed` and a `failed` appears within the fuel at or after the current
request index, the loop terminates by raising `ProcessingFailedError`
carrying the failure message assembled from the results document. -/
theorem wait_loop_failed (r : Remote) (srv : Server)
    (hmem : ∀ j, srv.status j = "accepted" ∨ srv.status j = "running"
      ∨ srv.status j = "failed") :
    ∀ (fuel m i : Nat) (sleep : ℚ) (last : String) (sleeps : List ℚ) (reqs : Nat),
      m < fuel → srv.status (i + m) = "failed" →
      ∃ o, wait_loop r srv sleep last i sleeps reqs fuel = some o
        ∧ o.result = .error (.processingFailedError
            (failure_message (r.build_result srv).body)) := by
  intro fuel
  induction fuel with
  | zero =>
    intro m i sleep last sleeps reqs hm _
    omega
  | succ n ih =>
    intro m i sleep last sleeps reqs hm hfail
    rcases hmem i with h | h | h
    · have hm' : 0 < m := by
        rcases Nat.eq_zero_or_pos m with h0 | h0
        · subst h0
          rw [Nat.add_zero] at hfail
          simp [hfail] at h
        · exact h0
      obtain ⟨o, ho, hres⟩ := ih (m - 1) (i + 1) (clampStep sleep r.sleep_max)
        (srv.status i) (clampStep sleep r.sleep_max :: sleeps) (reqs + 1)
        (by omega) (by rwa [show i + 1 + (m - 1) = i + m by omega])
      refine ⟨o, ?_, hres⟩
      simp only [wait_loop]
      rw [if_neg (by simp [h]), if_neg (by simp [h]), if_pos (Or.inl h), ho]
    · have hm' : 0 < m := by
        rcases Nat.eq_zero_or_pos m with h0 | h0
        · subst h0
          rw [Nat.add_zero] at hfail
          simp [hfail] at h
        · exact h0
      obtain ⟨o, ho, hres⟩ := ih (m - 1) (i + 1) (clampStep sleep r.sleep_max)
        (srv.status i) (clampStep sleep r.sleep_max :: sleeps) (reqs + 1)
        (by omega) (by rwa [show i + 1 + (m - 1) = i + m by omega])
      refine ⟨o, ?_, hres⟩
      simp only [wait_loop]
      rw [if_neg (by simp [h]), if_neg (by simp [h]), if_pos (Or.inr h), ho]
    · refine ⟨⟨.error (.processingFailedError (failure_message (r.build_result srv).body)),
        reqs + 1, sleeps.reverse⟩, ?_, rfl⟩
      simp only [wait_loop]
      rw [if_neg (by simp [h]), if_pos h]

/-- C9: for every status sequence of the job state machine that contains
`failed` (all values drawn from the recognized non-`successful` states,
terminal `failed` absorbing), `wait_on_result` raises
`ProcessingFailedError`, and its message contains the results document's
`title` and `detail` whenever they are present and is the generic
`"processing failed"` when both are absent.  The results document is the
one `build_result` fetches (via the `results` link or the `/results`
fallback). -/
theorem C9_failed_raises (r : Remote) (srv : Server) (k fuel : Nat)
    (hmem : ∀ j, srv.status j = "accepted" ∨ srv.status j = "running"
      ∨ srv.status j = "failed")
    (habs : ∀ j, srv.status j = "failed" → srv.status (j + 1) = "failed")
    (hk : srv.status k = "failed") (hfuel : k + 1 ≤ fuel) :
    ∃ o, r.wait_on_result srv fuel = some o
      ∧ o.result = .error (.processingFailedError
          (failure_message (r.build_result srv).body))
      ∧ (∀ t, (r.build_result srv).body.title = some t →
          ∃ s₁ s₂, failure_message (r.build_result srv).body = s₁ ++ t ++ s₂)
      ∧ (∀ d, (r.build_result srv).body.detail = some d →
          ∃ s₁ s₂, failure_message (r.build_result srv).body = s₁ ++ d ++ s₂)
      ∧ ((r.build_result srv).body.title = none →
          (r.build_result srv).body.detail = none →
          failure_message (r.build_result srv).body = "processing failed") := by
  have hk1 : srv.status (1 + k) = "failed" := by
    rw [show 1 + k = k + 1 by omega]
    exact habs k hk
  obtain ⟨o, ho, hres⟩ := wait_loop_failed r srv hmem fuel k 1 1 (srv.status 0) [] 1
    (by omega) hk1
  exact ⟨o, ho, hres,
    fun t ht => failure_message_has_title _ t ht,
    fun d hd => failure_message_has_detail _ d hd,
    fun ht hd => failure_message_generic _ ht hd⟩

/-- C9 witness: a server that reports `failed` on every poll, with a
results document carrying title `bad` and detail `worse`. -/
theorem C9_failed_raises_witness :
    ∃ o, remoteEx.wait_on_result srvAllFailed 2 = some o
      ∧ o.result = .error (.processingFailedError
          (failure_message (remoteEx.build_result srvAllFailed).body))
      ∧ (∀ t, (remoteEx.build_result srvAllFailed).body.title = some t →
          ∃ s₁ s₂, failure_message (remoteEx.build_result srvAllFailed).body = s₁ ++ t ++ s₂)
      ∧ (∀ d, (remoteEx.build_result srvAllFailed).body.detail = some d →
          ∃ s₁ s₂, failure_message (remoteEx.build_result srvAllFailed).body = s₁ ++ d ++ s₂)
      ∧ ((remoteEx.build_result srvAllFailed).body.title = none →
          (remoteEx.build_result srvAllFailed).body.detail = none →
          failure_message (remoteEx.build_result srvAllFailed).body = "processing failed") :=
  C9_failed_raises remoteEx srvAllFailed 0 2
    (fun _ => Or.inr (Or.inr rfl)) (fun _ _ => rfl) rfl (by decide)
